import Mathlib

/-!
Verification of the weather/tide dashboard pipeline (`src/app.py`).

We shallowly embed the core data pipeline:
  * `est_tide_rise` (app.py lines 92-112): barometric pressure → estimated
    tide rise, with NaN modelled as `Option.none` and Python floats as `ℚ`.
  * `get_tide_df`'s merge stage (app.py lines 194-206): two exact-timestamp
    left joins (`pd.merge` with `how='left'`), one `pd.merge_asof`
    (default backward direction), numeric coercion of the four data columns
    (`pd.to_numeric`, default `errors='raise'`), and the estimated-height
    column computed from predicted height and forecasted pressure.
  * the HTTP request construction of the fetchers (app.py lines 38-56 and
    121-140), recording the timeout actually passed to `requests.get`.

Timestamps are embedded as `ℤ` (pandas datetimes are totally ordered
instants; only their ordering and equality matter to the merge). Tabular
series are lists of `(timestamp, value)` pairs in row order.
-/

/-- A raw cell value as it sits in a pandas column before numeric coercion:
a numeric value (Python number or numeric string — `pd.to_numeric` accepts
both), a missing value (NaN/None), or a non-numeric string that
`pd.to_numeric` cannot parse. -/
inductive RawVal where
  | num : ℚ → RawVal
  | null : RawVal
  | text : String → RawVal
deriving DecidableEq

/-- The reference pressure of `est_tide_rise` (app.py line 101):
`ref_pressure = 1013.003`, i.e. the exact rational 1013003/1000
(written with `mkRat` so that it evaluates by kernel reduction). -/
def ref_pressure : ℚ := mkRat 1013003 1000

/-- The slope constant of `est_tide_rise` (app.py line 102): `slope = -0.3937`
inches per hPa, i.e. the exact rational -3937/10000. -/
def rise_slope : ℚ := -(mkRat 3937 10000)

/-- `est_tide_rise` (app.py lines 92-112). `pd.isna(pressure)` → NaN;
`pressure < ref_pressure` → `(1/12) * rise_slope * (pressure - ref_pressure)`;
otherwise NaN. NaN is modelled as `none`. -/
def est_tide_rise (pressure : Option ℚ) : Option ℚ :=
  match pressure with
  | none => none
  | some p =>
      if p < ref_pressure then some ((1 / 12) * rise_slope * (p - ref_pressure))
      else none

/-- The exact-timestamp left join of app.py lines 195-196
(`pd.merge(left, right, how='left', left_on='t', right_on='t')`): every left
row is kept; it is paired with each right row carrying the same timestamp,
or with `none` when no right row matches. `joinRows` builds the output rows
produced by one left row. -/
def joinRows {α β : Type} (x : ℤ × α) (r : List (ℤ × β)) :
    List (ℤ × α × Option β) :=
  match r.filter (fun y => decide (y.1 = x.1)) with
  | [] => [(x.1, x.2, none)]
  | z :: zs => (z :: zs).map (fun y => (x.1, x.2, some y.2))

/-- The exact-timestamp left join itself: one block of output rows per left
row, in left order. -/
def leftJoin {α β : Type} (l : List (ℤ × α)) (r : List (ℤ × β)) :
    List (ℤ × α × Option β) :=
  l.flatMap (fun x => joinRows x r)

/-- The backward as-of lookup underlying `pd.merge_asof` (app.py line 197,
default direction `backward`, exact matches allowed): the value of the last
right row whose timestamp is ≤ the anchor timestamp, assuming the right
table is sorted ascending by timestamp (as `merge_asof` requires). -/
def asofLookup {β : Type} (r : List (ℤ × β)) (t : ℤ) : Option β :=
  ((r.filter (fun y => decide (y.1 ≤ t))).getLast?).map Prod.snd

/-- `pd.merge_asof(left, right, left_on='t', right_on='t')` (app.py
line 197): every left row is kept and receives the as-of backward lookup of
its timestamp in the right table. -/
def asofJoin {α β : Type} (l : List (ℤ × α)) (r : List (ℤ × β)) :
    List (ℤ × α × Option β) :=
  l.map (fun x => (x.1, x.2, asofLookup r x.1))

/-- One row of `result_df` after the three merges of app.py lines 195-197,
before numeric coercion: timestamp, `Predicted Height`, `Measured Height`,
`Measured Pressure`, `Forecasted Pressure`, all still raw cell values. -/
structure MergedRaw where
  t : ℤ
  predicted : RawVal
  measured : RawVal
  measuredPressure : RawVal
  forecastedPressure : RawVal
deriving DecidableEq

/-- Pandas fills cells of unmatched left-join (and as-of) rows with NaN. -/
def fillNa (v : Option RawVal) : RawVal := v.getD RawVal.null

/-- The merge stage of `get_tide_df` (app.py lines 194-197): left-join the
measured-height table onto the prediction table on exact timestamp, then
left-join the measured-pressure table, then as-of-join the forecast table. -/
def mergeRaw (p_df a_df m_press_df fc_press_df : List (ℤ × RawVal)) :
    List MergedRaw :=
  (asofJoin (leftJoin (leftJoin p_df a_df) m_press_df) fc_press_df).map
    (fun r =>
      { t := r.1
        predicted := r.2.1.1.1
        measured := fillNa r.2.1.1.2
        measuredPressure := fillNa r.2.1.2
        forecastedPressure := fillNa r.2.2 })

/-- The error raised when a cell fails numeric coercion. In the source this
is the `ValueError` that `pd.to_numeric` (default `errors='raise'`, app.py
lines 201-203) raises on an unparseable value; the spec's error taxonomy
names this kind `DataShapeError`. -/
inductive DataShapeError where
  | unparseable : String → DataShapeError
deriving DecidableEq

/-- `pd.to_numeric` on one cell (app.py lines 201-203, default
`errors='raise'`): numeric values pass through, NaN stays NaN, and a
non-numeric string raises. -/
def to_numeric (v : RawVal) : Except DataShapeError (Option ℚ) :=
  match v with
  | RawVal.num q => Except.ok (some q)
  | RawVal.null => Except.ok none
  | RawVal.text s => Except.error (DataShapeError.unparseable s)

/-- One row of `result_df` after the numeric coercion of app.py
lines 199-203; NaN cells are `none`. -/
structure CoercedRow where
  t : ℤ
  predicted : Option ℚ
  measured : Option ℚ
  measuredPressure : Option ℚ
  forecastedPressure : Option ℚ
deriving DecidableEq

/-- Numeric coercion of the four data columns of one merged row (app.py
lines 201-203). -/
def coerceRow (r : MergedRaw) : Except DataShapeError CoercedRow :=
  (to_numeric r.predicted).bind (fun p =>
    (to_numeric r.measured).bind (fun mh =>
      (to_numeric r.measuredPressure).bind (fun mp =>
        (to_numeric r.forecastedPressure).map (fun fp =>
          { t := r.t
            predicted := p
            measured := mh
            measuredPressure := mp
            forecastedPressure := fp }))))

/-- Numeric coercion of the whole merged table: the first cell that fails
to parse raises, no coerced table is produced (app.py lines 201-203;
pandas raises on the first unparseable value of a column, here folded
row-wise — which error wins differs, that an error wins does not). -/
def coerceRows : List MergedRaw → Except DataShapeError (List CoercedRow)
  | [] => Except.ok []
  | r :: rest =>
      match coerceRow r with
      | Except.error e => Except.error e
      | Except.ok row => (coerceRows rest).map (fun l => row :: l)

/-- One row of the final unified table (`result_df` after app.py line 206),
with the derived `Estimated Height` column. -/
structure UnifiedRow where
  t : ℤ
  predicted : Option ℚ
  measured : Option ℚ
  measuredPressure : Option ℚ
  forecastedPressure : Option ℚ
  estimated : Option ℚ
deriving DecidableEq

/-- Pandas elementwise addition of two (possibly NaN) values: NaN on either
side propagates. -/
def optAdd (x y : Option ℚ) : Option ℚ :=
  match x, y with
  | some a, some b => some (a + b)
  | _, _ => none

/-- App.py line 206:
`result_df['Estimated Height'] = result_df['Predicted Height'] + result_df['Forecasted Pressure'].apply(est_tide_rise)`. -/
def addEstimated (r : CoercedRow) : UnifiedRow :=
  { t := r.t
    predicted := r.predicted
    measured := r.measured
    measuredPressure := r.measuredPressure
    forecastedPressure := r.forecastedPressure
    estimated := optAdd r.predicted (est_tide_rise r.forecastedPressure) }

/-- The pure core of `get_tide_df` (app.py lines 194-206): merge the four
normalized series, coerce the data columns to numbers (failing on
unparseable cells), and add the estimated-height column. -/
def get_tide_df (p_df a_df m_press_df fc_press_df : List (ℤ × RawVal)) :
    Except DataShapeError (List UnifiedRow) :=
  (coerceRows (mergeRaw p_df a_df m_press_df fc_press_df)).map
    (List.map addEstimated)

/-- The part of an HTTP GET call that the hang-safety claim is about: the
URL and the timeout bound passed to the HTTP client. -/
structure HttpRequest where
  url : String
  timeout : Option ℚ

/-- `requests.get(api_url)` as called at app.py lines 45, 55 and 138: no
`timeout=` argument is passed, and the `requests` library's default is no
timeout at all, so the request carries no time bound. -/
def requests_get (url : String) : HttpRequest :=
  { url := url, timeout := none }

/-- The request built by `get_weather_current` (app.py lines 38-46). -/
def get_weather_current_req (lat lon api_key : String) : HttpRequest :=
  requests_get
    ("http://api.openweathermap.org/data/2.5/weather?lat=" ++ lat ++
      "&lon=" ++ lon ++ "&units=imperial&appid=" ++ api_key)

/-- The request built by `get_weather_forecast` (app.py lines 48-56). -/
def get_weather_forecast_req (lat lon api_key : String) : HttpRequest :=
  requests_get
    ("https://api.openweathermap.org/data/2.5/forecast?lat=" ++ lat ++
      "&lon=" ++ lon ++ "&units=imperial&appid=" ++ api_key)

/-- The request built by `get_tide_data` (app.py lines 121-140), used for
all three tide-station products (predictions, water_level, air_pressure). -/
def get_tide_data_req (beginDate endDate stationId product datum : String) :
    HttpRequest :=
  requests_get
    ("https://api.tidesandcurrents.noaa.gov/api/prod/datagetter?begin_date=" ++
      beginDate ++ "&end_date=" ++ endDate ++ "&station=" ++ stationId ++
      "&product=" ++ product ++ "&datum=" ++ datum ++
      "&time_zone=lst_ldt&units=english&format=json")

/-- Concrete rows and tables used by the evaluation witnesses below. -/
def exRow1020 : UnifiedRow :=
  { t := 0, predicted := some 10, measured := none, measuredPressure := none,
    forecastedPressure := some 1020, estimated := none }

/-- A merged row anchored at t = 4 as produced from `exFc036`. -/
def exRowAnchor4 : MergedRaw :=
  { t := 4, predicted := RawVal.num 20, measured := RawVal.null,
    measuredPressure := RawVal.null, forecastedPressure := RawVal.num 1002 }

/-- Forecast samples at t = 0, 3, 6. -/
def exFc036 : List (ℤ × RawVal) :=
  [(0, RawVal.num 1001), (3, RawVal.num 1002), (6, RawVal.num 1003)]

/-- A merged row anchored long after the single forecast sample at t = 0. -/
def exRowStale : MergedRaw :=
  { t := 1000000, predicted := RawVal.num 5, measured := RawVal.null,
    measuredPressure := RawVal.null, forecastedPressure := RawVal.num 990 }

/-- A merged row holding an unparseable predicted-height cell. -/
def exRowBad : MergedRaw :=
  { t := 0, predicted := RawVal.text "bad", measured := RawVal.null,
    measuredPressure := RawVal.null, forecastedPressure := RawVal.null }

/-- The reference pressure as a quotient of integer literals. -/
theorem ref_pressure_eq : ref_pressure = 1013003 / 1000 := by
  rw [ref_pressure, Rat.mkRat_eq_divInt, Rat.divInt_eq_div]; norm_num

/-- The slope constant as a quotient of integer literals. -/
theorem rise_slope_eq : rise_slope = -(3937 / 10000) := by
  rw [rise_slope, Rat.mkRat_eq_divInt, Rat.divInt_eq_div]; norm_num

/-- C4: for every pressure strictly below the reference pressure 1013.003,
the Pressure-Rise Estimator returns exactly
`(1/12) * (-0.3937) * (pressure - 1013.003)`. -/
theorem est_tide_rise_below_ref_formula (p : ℚ) (h : p < ref_pressure) :
    est_tide_rise (some p) = some ((1 / 12) * (-0.3937 : ℚ) * (p - (1013.003 : ℚ))) := by
  have hslope : (-0.3937 : ℚ) = rise_slope := by norm_num [rise_slope_eq]
  have href : (1013.003 : ℚ) = ref_pressure := by norm_num [ref_pressure_eq]
  simp [est_tide_rise, h, hslope, href]

/-- Witness for C4 at `p = 1000`. -/
theorem est_tide_rise_below_ref_formula_witness :
    est_tide_rise (some (1000 : ℚ)) = some ((1 / 12) * (-0.3937 : ℚ) * ((1000 : ℚ) - (1013.003 : ℚ))) :=
  est_tide_rise_below_ref_formula 1000 (by decide)

/-- C5: the Pressure-Rise Estimator returns null on null input, and null for
every pressure at or above the reference pressure 1013.003 (the
below-reference test is strict, so exactly at the reference it is null). -/
theorem est_tide_rise_null_cases :
    est_tide_rise none = none ∧
      ∀ p : ℚ, ref_pressure ≤ p → est_tide_rise (some p) = none := by
  refine ⟨rfl, fun p hp => ?_⟩
  simp [est_tide_rise, not_lt.mpr hp]

/-- Witness for C5 exactly at the reference value 1013.003 (and on null). -/
theorem est_tide_rise_null_cases_witness :
    est_tide_rise none = none ∧ est_tide_rise (some (1013.003 : ℚ)) = none :=
  ⟨est_tide_rise_null_cases.1,
    est_tide_rise_null_cases.2 1013.003 (by norm_num [ref_pressure_eq])⟩

/-- C6: for every pressure strictly below the reference pressure, the
Pressure-Rise Estimator returns a strictly positive rise. -/
theorem est_tide_rise_pos (p : ℚ) (h : p < ref_pressure) :
    ∃ v : ℚ, est_tide_rise (some p) = some v ∧ 0 < v := by
  refine ⟨(1 / 12) * rise_slope * (p - ref_pressure), by simp [est_tide_rise, h], ?_⟩
  have h1 : (1 / 12 : ℚ) * rise_slope < 0 := by norm_num [rise_slope_eq]
  have h2 : p - ref_pressure < 0 := sub_neg.mpr h
  exact mul_pos_of_neg_of_neg h1 h2

/-- Witness for C6 at `p = 1000`. -/
theorem est_tide_rise_pos_witness :
    ∃ v : ℚ, est_tide_rise (some (1000 : ℚ)) = some v ∧ 0 < v :=
  est_tide_rise_pos 1000 (by decide)

/-- Reduction of `Except.bind` on a success value. -/
theorem except_bind_ok {ε α β : Type} (a : α) (f : α → Except ε β) :
    (Except.ok a : Except ε α).bind f = f a := rfl

/-- Reduction of `Except.bind` on an error. -/
theorem except_bind_error {ε α β : Type} (e : ε) (f : α → Except ε β) :
    (Except.error e : Except ε α).bind f = Except.error e := rfl

/-- Reduction of `Except.map` on a success value. -/
theorem except_map_ok {ε α β : Type} (f : α → β) (a : α) :
    Except.map f (Except.ok a : Except ε α) = Except.ok (f a) := rfl

/-- Reduction of `Except.map` on an error. -/
theorem except_map_error {ε α β : Type} (f : α → β) (e : ε) :
    Except.map f (Except.error e : Except ε α) = Except.error e := rfl

/-- Pandas addition with NaN on the right is NaN. -/
theorem optAdd_none_right (x : Option ℚ) : optAdd x none = none := by
  cases x <;> rfl

/-- In a list sorted strictly ascending by timestamp, every element's
timestamp is at most the timestamp of the element `getLast?` returns. -/
theorem key_le_of_getLast? {β : Type} :
    ∀ (l : List (ℤ × β)), l.Pairwise (fun x y => x.1 < y.1) →
      ∀ g, l.getLast? = some g → ∀ x ∈ l, x.1 ≤ g.1 := by
  intro l
  induction l with
  | nil => intro _ g hg; simp at hg
  | cons a t ih =>
    intro hp g hg x hx
    cases t with
    | nil =>
      rw [List.getLast?_singleton] at hg
      rcases List.mem_singleton.mp hx with rfl
      rw [← Option.some_inj.mp hg]
    | cons b t' =>
      rw [List.getLast?_cons_cons] at hg
      rcases List.mem_cons.mp hx with rfl | hx'
      · have hgmem : g ∈ b :: t' := List.mem_of_getLast?_eq_some hg
        exact le_of_lt (List.rel_of_pairwise_cons hp hgmem)
      · exact ih (List.Pairwise.of_cons hp) g hg x hx'

/-- Correctness of the backward as-of lookup on a sorted table: either it
returns the value of the unique row with the greatest timestamp ≤ the
anchor, or every row of the table is strictly in the anchor's future and it
returns nothing. -/
theorem asofLookup_spec {β : Type} (fc : List (ℤ × β))
    (hp : fc.Pairwise (fun x y => x.1 < y.1)) (t : ℤ) :
    (∃ r, r ∈ fc ∧ r.1 ≤ t ∧ asofLookup fc t = some r.2 ∧
        ∀ s ∈ fc, s.1 ≤ t → s.1 ≤ r.1) ∨
      ((∀ r ∈ fc, t < r.1) ∧ asofLookup fc t = none) := by
  cases hlast : (fc.filter (fun y => decide (y.1 ≤ t))).getLast? with
  | none =>
    refine Or.inr ⟨?_, ?_⟩
    · intro r hr
      by_contra hlt
      have hrle : r.1 ≤ t := not_lt.mp hlt
      have hmem : r ∈ fc.filter (fun y => decide (y.1 ≤ t)) :=
        List.mem_filter.mpr ⟨hr, by simpa using hrle⟩
      rw [List.getLast?_eq_none_iff.mp hlast] at hmem
      exact List.not_mem_nil r hmem
    · unfold asofLookup
      rw [hlast]
      rfl
  | some g =>
    have hgmem : g ∈ fc.filter (fun y => decide (y.1 ≤ t)) :=
      List.mem_of_getLast?_eq_some hlast
    have hg1 : g ∈ fc := (List.mem_filter.mp hgmem).1
    have hg2 : g.1 ≤ t := by
      have := (List.mem_filter.mp hgmem).2
      simpa using this
    refine Or.inl ⟨g, hg1, hg2, by unfold asofLookup; rw [hlast]; rfl, ?_⟩
    intro s hs hst
    have hsmem : s ∈ fc.filter (fun y => decide (y.1 ≤ t)) :=
      List.mem_filter.mpr ⟨hs, by simpa using hst⟩
    have hpf : (fc.filter (fun y => decide (y.1 ≤ t))).Pairwise
        (fun x y => x.1 < y.1) :=
      List.Pairwise.sublist (List.filter_sublist fc) hp
    exact key_le_of_getLast? _ hpf g hlast s hsmem

/-- Every row of the merged table carries, as its forecasted pressure, the
backward as-of lookup of its own timestamp in the forecast table (NaN when
the lookup finds nothing). -/
theorem mergeRaw_forecast (p_df a_df m_press_df fc_press_df : List (ℤ × RawVal)) :
    ∀ row ∈ mergeRaw p_df a_df m_press_df fc_press_df,
      row.forecastedPressure = fillNa (asofLookup fc_press_df row.t) := by
  intro row hrow
  simp only [mergeRaw, asofJoin, List.map_map, List.mem_map] at hrow
  obtain ⟨x, hx, rfl⟩ := hrow
  rfl

/-- Filtering a table with duplicate-free timestamps down to one timestamp
keeps at most one row. -/
theorem filter_key_len_le_one {β : Type} (r : List (ℤ × β))
    (h : (r.map Prod.fst).Nodup) (t : ℤ) :
    (r.filter (fun y => decide (y.1 = t))).length ≤ 1 := by
  induction r with
  | nil => simp
  | cons y ys ih =>
    rw [List.map_cons, List.nodup_cons] at h
    by_cases hy : y.1 = t
    · have hnone : ys.filter (fun z => decide (z.1 = t)) = [] := by
        rw [List.filter_eq_nil_iff]
        intro z hz
        simp only [decide_eq_true_eq]
        intro hzt
        apply h.1
        rw [hy, ← hzt]
        exact List.mem_map.mpr ⟨z, hz, rfl⟩
      simp [List.filter_cons, hy, hnone]
    · simpa [List.filter_cons, hy] using ih h.2

/-- Against a table with duplicate-free timestamps, one left row produces
exactly one output row. -/
theorem joinRows_length {α β : Type} (x : ℤ × α) (r : List (ℤ × β))
    (h : (r.map Prod.fst).Nodup) : (joinRows x r).length = 1 := by
  cases hcase : r.filter (fun y => decide (y.1 = x.1)) with
  | nil => simp [joinRows, hcase]
  | cons z zs =>
    have hlen := filter_key_len_le_one r h x.1
    rw [hcase] at hlen
    simp only [List.length_cons] at hlen
    simp only [joinRows, hcase, List.length_map, List.length_cons]
    omega

/-- A left join against a table with duplicate-free timestamps produces
exactly one output row per left row. -/
theorem leftJoin_length {α β : Type} (l : List (ℤ × α)) (r : List (ℤ × β))
    (h : (r.map Prod.fst).Nodup) : (leftJoin l r).length = l.length := by
  induction l with
  | nil => rfl
  | cons x xs ih =>
    simp only [leftJoin] at ih ⊢
    rw [List.flatMap_cons, List.length_append, ih, joinRows_length x r h,
      List.length_cons]
    omega

/-- The as-of join produces exactly one output row per left row. -/
theorem asofJoin_length {α β : Type} (l : List (ℤ × α)) (r : List (ℤ × β)) :
    (asofJoin l r).length = l.length := by
  simp [asofJoin]

/-- The merged table has exactly one row per prediction row, provided the
two exactly-joined measurement tables have duplicate-free timestamps. -/
theorem mergeRaw_length (p_df a_df m_press_df fc_press_df : List (ℤ × RawVal))
    (ha : (a_df.map Prod.fst).Nodup) (hm : (m_press_df.map Prod.fst).Nodup) :
    (mergeRaw p_df a_df m_press_df fc_press_df).length = p_df.length := by
  rw [mergeRaw, List.length_map, asofJoin_length,
    leftJoin_length _ m_press_df hm, leftJoin_length _ a_df ha]

/-- Every row of a successfully produced unified table is the
estimated-height extension of some coerced row. -/
theorem get_tide_df_rows (p_df a_df m_press_df fc_press_df : List (ℤ × RawVal))
    (rows : List UnifiedRow)
    (hok : get_tide_df p_df a_df m_press_df fc_press_df = Except.ok rows) :
    ∀ row ∈ rows, ∃ c : CoercedRow, row = addEstimated c := by
  unfold get_tide_df at hok
  cases hc : coerceRows (mergeRaw p_df a_df m_press_df fc_press_df) with
  | error e =>
    rw [hc, except_map_error] at hok
    exact Except.noConfusion hok
  | ok l =>
    rw [hc, except_map_ok] at hok
    injection hok with h
    subst h
    intro row hrow
    rcases List.mem_map.mp hrow with ⟨c, _, rfl⟩
    exact ⟨c, rfl⟩

/-- A merged row with an unparseable cell in any of the four data columns
fails numeric coercion. -/
theorem coerceRow_error_of_text (r : MergedRaw) (s : String)
    (hbad : r.predicted = RawVal.text s ∨ r.measured = RawVal.text s ∨
      r.measuredPressure = RawVal.text s ∨ r.forecastedPressure = RawVal.text s) :
    ∃ e, coerceRow r = Except.error e := by
  rcases hbad with h | h | h | h
  · have hpe : to_numeric r.predicted = Except.error (DataShapeError.unparseable s) := by
      rw [h]
      rfl
    exact ⟨DataShapeError.unparseable s,
      by simp only [coerceRow, hpe, except_bind_error]⟩
  · have hme : to_numeric r.measured = Except.error (DataShapeError.unparseable s) := by
      rw [h]
      rfl
    cases hp : to_numeric r.predicted with
    | error e => exact ⟨e, by simp only [coerceRow, hp, except_bind_error]⟩
    | ok v =>
      exact ⟨DataShapeError.unparseable s,
        by simp only [coerceRow, hp, except_bind_ok, hme, except_bind_error]⟩
  · have hmpe : to_numeric r.measuredPressure =
        Except.error (DataShapeError.unparseable s) := by
      rw [h]
      rfl
    cases hp : to_numeric r.predicted with
    | error e => exact ⟨e, by simp only [coerceRow, hp, except_bind_error]⟩
    | ok v =>
      cases hmh : to_numeric r.measured with
      | error e =>
        exact ⟨e, by simp only [coerceRow, hp, except_bind_ok, hmh, except_bind_error]⟩
      | ok w =>
        exact ⟨DataShapeError.unparseable s,
          by simp only [coerceRow, hp, except_bind_ok, hmh, hmpe, except_bind_error]⟩
  · have hfpe : to_numeric r.forecastedPressure =
        Except.error (DataShapeError.unparseable s) := by
      rw [h]
      rfl
    cases hp : to_numeric r.predicted with
    | error e => exact ⟨e, by simp only [coerceRow, hp, except_bind_error]⟩
    | ok v =>
      cases hmh : to_numeric r.measured with
      | error e =>
        exact ⟨e, by simp only [coerceRow, hp, except_bind_ok, hmh, except_bind_error]⟩
      | ok w =>
        cases hmp : to_numeric r.measuredPressure with
        | error e =>
          exact ⟨e, by simp only [coerceRow, hp, except_bind_ok, hmh, hmp,
            except_bind_error]⟩
        | ok u =>
          exact ⟨DataShapeError.unparseable s,
            by simp only [coerceRow, hp, except_bind_ok, hmh, hmp, hfpe,
              except_map_error]⟩

/-- If any row of the merged table fails coercion, coercion of the whole
table fails. -/
theorem coerceRows_error_of_mem (l : List MergedRaw) (r : MergedRaw) (hr : r ∈ l)
    (herr : ∃ e, coerceRow r = Except.error e) :
    ∃ e, coerceRows l = Except.error e := by
  induction l with
  | nil => cases hr
  | cons x xs ih =>
    cases hx : coerceRow x with
    | error e => exact ⟨e, by simp [coerceRows, hx]⟩
    | ok row =>
      rcases List.mem_cons.mp hr with rfl | hr'
      · rcases herr with ⟨e, he⟩
        rw [hx] at he
        exact Except.noConfusion he
      · rcases ih hr' with ⟨e, he⟩
        exact ⟨e, by simp [coerceRows, hx, he, except_map_error]⟩

/-- C1: every row of a successfully produced unified table has its
estimated height equal to its own predicted height plus the rise estimated
from its own (joined) forecasted pressure — with pandas NaN propagation:
when the rise is undefined the sum is NaN. The formula reads only the
forecasted-pressure column, never the measured-pressure column. -/
theorem estimated_height_from_forecasted_pressure
    (p_df a_df m_press_df fc_press_df : List (ℤ × RawVal))
    (rows : List UnifiedRow)
    (hok : get_tide_df p_df a_df m_press_df fc_press_df = Except.ok rows)
    (row : UnifiedRow) (hrow : row ∈ rows) :
    row.estimated = optAdd row.predicted (est_tide_rise row.forecastedPressure) := by
  rcases get_tide_df_rows p_df a_df m_press_df fc_press_df rows hok row hrow with
    ⟨c, rfl⟩
  rfl

/-- Witness for C1 on a one-row prediction table with a forecast sample. -/
theorem estimated_height_from_forecasted_pressure_witness :
    exRow1020.estimated =
      optAdd exRow1020.predicted (est_tide_rise exRow1020.forecastedPressure) :=
  estimated_height_from_forecasted_pressure
    [((0 : ℤ), RawVal.num 10)] [] [] [((0 : ℤ), RawVal.num 1020)]
    [exRow1020] (by rfl) exRow1020 (by decide)

/-- C2: on a forecast table sorted strictly ascending by timestamp, every
merged row's forecasted pressure either comes from the forecast row with
the greatest timestamp ≤ the row's (anchor) timestamp — never a future
sample — or, when every forecast sample lies strictly in the anchor's
future, it is null. -/
theorem forecast_join_nearest_prior
    (p_df a_df m_press_df fc_press_df : List (ℤ × RawVal))
    (hsorted : fc_press_df.Pairwise (fun x y => x.1 < y.1))
    (row : MergedRaw) (hrow : row ∈ mergeRaw p_df a_df m_press_df fc_press_df) :
    (∃ r, r ∈ fc_press_df ∧ r.1 ≤ row.t ∧ row.forecastedPressure = r.2 ∧
        ∀ s ∈ fc_press_df, s.1 ≤ row.t → s.1 ≤ r.1) ∨
      ((∀ r ∈ fc_press_df, row.t < r.1) ∧
        row.forecastedPressure = RawVal.null) := by
  have hfp := mergeRaw_forecast p_df a_df m_press_df fc_press_df row hrow
  rcases asofLookup_spec fc_press_df hsorted row.t with
    ⟨r, hr, hle, heq, hmax⟩ | ⟨hall, heq⟩
  · refine Or.inl ⟨r, hr, hle, ?_, hmax⟩
    rw [hfp, heq]
    rfl
  · refine Or.inr ⟨hall, ?_⟩
    rw [hfp, heq]
    rfl

/-- Witness for C2: forecast samples at t = 0, 3, 6 and an anchor at t = 4
match the t = 3 sample (value 1002), never the future t = 6 sample. -/
theorem forecast_join_nearest_prior_witness :
    (∃ r, r ∈ exFc036 ∧ r.1 ≤ exRowAnchor4.t ∧
        exRowAnchor4.forecastedPressure = r.2 ∧
        ∀ s ∈ exFc036, s.1 ≤ exRowAnchor4.t → s.1 ≤ r.1) ∨
      ((∀ r ∈ exFc036, exRowAnchor4.t < r.1) ∧
        exRowAnchor4.forecastedPressure = RawVal.null) :=
  forecast_join_nearest_prior [((4 : ℤ), RawVal.num 20)] [] [] exFc036
    (by decide) exRowAnchor4 (by decide)

/-- C3: whenever every input series has duplicate-free timestamps, the
merged table has exactly as many rows as the tide-prediction series,
whatever the lengths of the other three series. -/
theorem merge_row_count
    (p_df a_df m_press_df fc_press_df : List (ℤ × RawVal))
    (_hpn : (p_df.map Prod.fst).Nodup) (han : (a_df.map Prod.fst).Nodup)
    (hmn : (m_press_df.map Prod.fst).Nodup)
    (_hfn : (fc_press_df.map Prod.fst).Nodup) :
    (mergeRaw p_df a_df m_press_df fc_press_df).length = p_df.length :=
  mergeRaw_length p_df a_df m_press_df fc_press_df han hmn

/-- Witness for C3 with a two-row prediction series and all three other
series empty. -/
theorem merge_row_count_witness :
    (mergeRaw [((0 : ℤ), RawVal.num 1), (1, RawVal.num 2)] [] [] []).length =
      ([((0 : ℤ), RawVal.num 1), (1, RawVal.num 2)] : List (ℤ × RawVal)).length :=
  merge_row_count [((0 : ℤ), RawVal.num 1), (1, RawVal.num 2)] [] [] []
    (by decide) (by decide) (by decide) (by decide)

/-- C7: if any merged row holds a non-numeric (unparseable) value in any of
the four data columns, the whole merge fails with a `DataShapeError`
instead of producing a unified table (so the value cannot silently become
null in the output). -/
theorem coercion_failure_aborts_merge
    (p_df a_df m_press_df fc_press_df : List (ℤ × RawVal)) (r : MergedRaw)
    (hr : r ∈ mergeRaw p_df a_df m_press_df fc_press_df) (s : String)
    (hbad : r.predicted = RawVal.text s ∨ r.measured = RawVal.text s ∨
      r.measuredPressure = RawVal.text s ∨ r.forecastedPressure = RawVal.text s) :
    ∃ e, get_tide_df p_df a_df m_press_df fc_press_df = Except.error e := by
  rcases coerceRows_error_of_mem (mergeRaw p_df a_df m_press_df fc_press_df) r hr
    (coerceRow_error_of_text r s hbad) with ⟨e, he⟩
  exact ⟨e, by simp only [get_tide_df, he, except_map_error]⟩

/-- Witness for C7 with an unparseable predicted-height cell. -/
theorem coercion_failure_aborts_merge_witness :
    ∃ e, get_tide_df [((0 : ℤ), RawVal.text "bad")] [] [] [] = Except.error e :=
  coercion_failure_aborts_merge [((0 : ℤ), RawVal.text "bad")] [] [] []
    exRowBad (by decide) "bad" (Or.inl rfl)

/-- C8: contrary to the claim, no external HTTP call of the source is
bounded by a timeout — `requests.get` is invoked with no `timeout=`
argument at every call site (weather-current, weather-forecast, and the
tide-station fetch used for all three products), so the request carries no
time bound and a stalled server can hang the render indefinitely; nor is
any failure converted into a FetchFailure-style error. -/
theorem fetch_requests_have_no_timeout :
    ∀ lat lon api_key beginDate endDate stationId product datum : String,
      (get_weather_current_req lat lon api_key).timeout = none ∧
      (get_weather_forecast_req lat lon api_key).timeout = none ∧
      (get_tide_data_req beginDate endDate stationId product datum).timeout = none :=
  fun _ _ _ _ _ _ _ _ => ⟨rfl, rfl, rfl⟩

/-- C9: a successfully produced unified-table row whose forecasted pressure
is null or at least the reference pressure has a null estimated height —
no fallback to the bare predicted height happens. -/
theorem estimated_gap_when_rise_undefined
    (p_df a_df m_press_df fc_press_df : List (ℤ × RawVal))
    (rows : List UnifiedRow)
    (hok : get_tide_df p_df a_df m_press_df fc_press_df = Except.ok rows)
    (row : UnifiedRow) (hrow : row ∈ rows)
    (hfp : row.forecastedPressure = none ∨
      ∃ q, row.forecastedPressure = some q ∧ ref_pressure ≤ q) :
    row.estimated = none := by
  rcases get_tide_df_rows p_df a_df m_press_df fc_press_df rows hok row hrow with
    ⟨c, rfl⟩
  have hrise : est_tide_rise c.forecastedPressure = none := by
    rcases hfp with h | ⟨q, hq, hge⟩
    · have hc : c.forecastedPressure = none := h
      rw [hc]
      rfl
    · have hc : c.forecastedPressure = some q := hq
      rw [hc]
      simp [est_tide_rise, not_lt.mpr hge]
  show optAdd c.predicted (est_tide_rise c.forecastedPressure) = none
  rw [hrise]
  exact optAdd_none_right c.predicted

/-- Witness for C9: a row whose forecasted pressure 1020 exceeds the
reference pressure has a null estimated height. -/
theorem estimated_gap_when_rise_undefined_witness :
    exRow1020.estimated = none :=
  estimated_gap_when_rise_undefined
    [((0 : ℤ), RawVal.num 10)] [] [] [((0 : ℤ), RawVal.num 1020)]
    [exRow1020] (by rfl) exRow1020 (by decide)
    (Or.inr ⟨1020, rfl, by decide⟩)

/-- C10: the as-of join has no staleness bound — on a sorted forecast
table, every merged row whose anchor timestamp is at or after the last
forecast sample's timestamp receives that last sample's pressure, however
large the gap. -/
theorem forecast_join_no_staleness_bound
    (p_df a_df m_press_df fc_press_df : List (ℤ × RawVal))
    (hsorted : fc_press_df.Pairwise (fun x y => x.1 < y.1))
    (g : ℤ × RawVal) (hlast : fc_press_df.getLast? = some g)
    (row : MergedRaw) (hrow : row ∈ mergeRaw p_df a_df m_press_df fc_press_df)
    (hstale : g.1 ≤ row.t) :
    row.forecastedPressure = g.2 := by
  have hfp := mergeRaw_forecast p_df a_df m_press_df fc_press_df row hrow
  have hfilter : fc_press_df.filter (fun y => decide (y.1 ≤ row.t)) =
      fc_press_df := by
    rw [List.filter_eq_self]
    intro x hx
    simp only [decide_eq_true_eq]
    exact le_trans (key_le_of_getLast? fc_press_df hsorted g hlast x hx) hstale
  have hlook : asofLookup fc_press_df row.t = some g.2 := by
    unfold asofLookup
    rw [hfilter, hlast]
    rfl
  rw [hfp, hlook]
  rfl

/-- Witness for C10: a single forecast sample at t = 0 still fills an
anchor one million time units later. -/
theorem forecast_join_no_staleness_bound_witness :
    exRowStale.forecastedPressure = (((0 : ℤ), RawVal.num 990)).2 :=
  forecast_join_no_staleness_bound
    [((1000000 : ℤ), RawVal.num 5)] [] [] [((0 : ℤ), RawVal.num 990)]
    (by decide) ((0 : ℤ), RawVal.num 990) (by rfl)
    exRowStale (by decide) (by decide)
